import Mathlib

/-
Verification development for the ttyc remote-terminal client.

Part 1 embeds the escape-sequence command multiplexer from
cmd/ttyc/handlers/stdfds.go (handleStdin and handleCommand).
Part 2 embeds the protocol engine from ws/protocol.go (chanLoop,
doShutdown, Close, SoftClose, Redial, watchdog).

Bytes are modelled as natural numbers (their ASCII values).  Side
effects of command handlers (messages printed, the quit sentinel sent
on the error channel, the baud-detection request) are modelled as an
explicit effect list.  A Go slice-index or slice-bound violation is
modelled by returning none (the Go program panics there).
-/

namespace Handlers

/-- Escape trigger byte, 0x14 (ctrl-T), from stdfds.go. -/
def EscapeChar : Nat := 20

/-- Command byte for the help command. -/
def HelpChar : Nat := 63

/-- Command byte for the quit command. -/
def QuitChar : Nat := 113

/-- Command byte for the show-configuration command. -/
def ConfigChar : Nat := 99

/-- Command byte for the baudrate-detection command. -/
def DetectBaudChar : Nat := 98

/-- Command byte for the clear-screen command. -/
def ClearChar : Nat := 108

/-- Command byte for re-emitting the literal trigger byte. -/
def CtrlTChar : Nat := 116

/-- Observable side effects of the command handlers in stdfds.go.
The quitSignal effect models sending the quitting error on errChan;
the others model the printed output or the engine control call. -/
inductive CmdEffect
  | quitSignal
  | configShown
  | baudDetectRequested
  | baudDetectUnsupported
  | screenCleared
  | helpShown
deriving DecidableEq, Repr

/-- Embedding of stdfdsHandler.handleCommand.  Returns the effect list
and the replacement bytes put back into the input buffer.  The switch
arms follow the source order; a byte matching no arm falls through and
returns an empty replacement with no effect.  The isWiSe flag models
s.implementation == ttyc.ImplementationWiSe in the DetectBaudChar arm. -/
def handleCommand (isWiSe : Bool) (command : Nat) : List CmdEffect × List Nat :=
  if command = QuitChar then ([CmdEffect.quitSignal], [])
  else if command = ConfigChar then ([CmdEffect.configShown], [])
  else if command = DetectBaudChar then
    (if isWiSe then [CmdEffect.baudDetectRequested] else [CmdEffect.baudDetectUnsupported], [])
  else if command = ClearChar then ([CmdEffect.screenCleared], [])
  else if command = CtrlTChar then ([], [EscapeChar])
  else if command = HelpChar then ([CmdEffect.helpShown], [])
  else ([], [])

/-- Embedding of bytes.Index(input, single byte b): the index of the
first occurrence of b, or -1 when b does not occur. -/
def goIndex (b : Nat) : List Nat → Int
  | [] => -1
  | x :: xs =>
    if x = b then 0
    else
      let r := goIndex b xs
      if r < 0 then -1 else r + 1

/-- Embedding of one loop iteration of stdfdsHandler.handleStdin for one
input chunk.  Input: the isWiSe flag, the expectingCommand flag carried
across chunks and the chunk bytes.  Output: none when the Go code would
panic with an index or slice bound violation, otherwise the new
expectingCommand flag, the chunk sent to outChan (none when the code
path hits continue and sends nothing) and the handler effects, in order.

The steps mirror the source: escapePos is computed on the original
chunk before any pending command is handled; a pending command consumes
the first byte, splices the replacement in its place and shifts
escapePos by 1 - len(replacement); then the trigger branch dispatches on
the (possibly shifted) escapePos against the (possibly spliced) chunk.
In the inline-trigger branch the source reads input[escapePos] as the
command byte and drops input[escapePos .. escapePos+2); it panics
exactly when escapePos is not below the spliced length, which the guard
below reflects. -/
def handleChunk (isWiSe : Bool) (pending : Bool) (input0 : List Nat) :
    Option (Bool × Option (List Nat) × List CmdEffect) :=
  let escapePos0 : Int := goIndex EscapeChar input0
  let step1 : Option (List Nat × Int × List CmdEffect) :=
    if pending then
      match input0 with
      | [] => none
      | b0 :: rest =>
        let er := handleCommand isWiSe b0
        let input1 := er.2 ++ rest
        let escapePos1 :=
          if escapePos0 ≥ 0 then escapePos0 + 1 - (er.2.length : Int) else escapePos0
        some (input1, escapePos1, er.1)
    else some (input0, escapePos0, [])
  match step1 with
  | none => none
  | some (input1, ep, effs1) =>
    if ep ≥ 0 ∧ ep = (input1.length : Int) - 1 then
      if input1.length = 1 then some (true, none, effs1)
      else some (true, some (input1.take (input1.length - 1)), effs1)
    else if ep ≥ 0 then
      if h : ep.toNat < input1.length then
        let before := input1.take ep.toNat
        let cmd := input1.get ⟨ep.toNat, h⟩
        let after := input1.drop (ep.toNat + 2)
        let er := handleCommand isWiSe cmd
        some (false, some (before ++ er.2 ++ after), effs1 ++ er.1)
      else none
    else some (false, some input1, effs1)

/-- Runs handleChunk over a sequence of chunks, collecting the chunks
sent to outChan and the handler effects; none when any chunk makes the
Go code panic. -/
def runChunks (isWiSe : Bool) (pending : Bool) :
    List (List Nat) → Option (Bool × List (List Nat) × List CmdEffect)
  | [] => some (pending, [], [])
  | c :: rest =>
    match handleChunk isWiSe pending c with
    | none => none
    | some (p1, out, effs) =>
      match runChunks isWiSe p1 rest with
      | none => none
      | some (pf, outs, effs2) =>
        some (pf, (match out with | none => outs | some o => o :: outs), effs ++ effs2)

end Handlers

namespace Ws

/-- Client-to-server message tag for input bytes. -/
def MsgInput : Nat := 48

/-- Client-to-server message tag for a resize request. -/
def MsgResizeTerminal : Nat := 49

/-- Client-to-server message tag for pause. -/
def MsgPause : Nat := 50

/-- Client-to-server message tag for resume. -/
def MsgResume : Nat := 51

/-- Client-to-server message tag for arbitrary JSON data. -/
def MsgJsonData : Nat := 123

/-- Tag used in both directions for baudrate detection. -/
def MsgDetectBaudrate : Nat := 66

/-- Server-to-client message tag for output bytes. -/
def MsgOutput : Nat := 48

/-- Server-to-client message tag for a window title. -/
def MsgSetWindowTitle : Nat := 49

/-- Server-to-client message tag for preferences. -/
def MsgPreferences : Nat := 50

/-- Server-to-client message tag requesting a pause of client writes. -/
def MsgServerPause : Nat := 83

/-- Server-to-client message tag requesting a resume of client writes. -/
def MsgServerResume : Nat := 81

/-- Errors produced by the client, one constructor per fmt.Errorf site
or error source relevant to the claims. -/
inductive GoError
  | transportFailed
  | notResponding
  | redialNotAllowed
  | softCloseWhileRunning
  | quitting
  | connectFailed
deriving DecidableEq, Repr

/-- Model of a Go channel: a fixed capacity and the buffered values.
The channels created by DialAndAuth all have capacity 0 (unbuffered). -/
structure Chan (α : Type) where
  cap : Nat
  buf : List α
deriving DecidableEq, Repr

/-- Embedding of the channel-emptying loops in chanLoop (the labelled
loops doing a nonblocking receive until the default branch is taken):
every buffered value is removed.  A nonblocking receive on one of the
engine channels succeeds only for a buffered value, because the
receiving goroutine is the only sender. -/
def drainList {α : Type} : List α → List α
  | [] => []
  | _ :: rest => drainList rest

/-- Drains a channel as the emptying loops in chanLoop do. -/
def drainChan {α : Type} (ch : Chan α) : Chan α :=
  { ch with buf := drainList ch.buf }

/-- State of one ws.Client, with the observable history needed by the
claims.  Channel sends that hand a value to a ready consumer are
recorded in the Delivered lists; transportWrites records every frame
passed to WsClient.WriteMessage by chanLoop; counters record how often
the ports and the transport have been closed. -/
structure EngineState where
  isShutdown : Bool
  closed : Bool
  flowControlEngaged : Bool
  flowLockHeld : Bool
  winTitle : Chan (List Nat)
  detectedBaudrate : Chan Int
  outputConsumerReady : Bool
  titleConsumerReady : Bool
  baudConsumerReady : Bool
  outputDelivered : List (List Nat)
  titleDelivered : List (List Nat)
  baudDelivered : List Int
  errorsSent : List GoError
  transportWrites : List (List Nat)
  shutdownClosed : Bool
  closeChanClosed : Bool
  portsClosed : Bool
  portCloseCount : Nat
  transportClosed : Bool
  transportCloseCount : Nat
  warnings : Nat
  dialCount : Nat
deriving DecidableEq, Repr

/-- Client state directly after DialAndAuth succeeded: the channels are
unbuffered and empty, isShutdown was reset to false by Redial, nothing
has been written or delivered yet. -/
def engineInit : EngineState :=
  { isShutdown := false
    closed := false
    flowControlEngaged := false
    flowLockHeld := false
    winTitle := ⟨0, []⟩
    detectedBaudrate := ⟨0, []⟩
    outputConsumerReady := false
    titleConsumerReady := false
    baudConsumerReady := false
    outputDelivered := []
    titleDelivered := []
    baudDelivered := []
    errorsSent := []
    transportWrites := []
    shutdownClosed := false
    closeChanClosed := false
    portsClosed := false
    portCloseCount := 0
    transportClosed := false
    transportCloseCount := 0
    warnings := 0
    dialCount := 1 }

/-- Embedding of strconv.ParseInt(string(payload), 10, 64): an optional
single leading plus or minus sign followed by at least one decimal
digit, whole value within the signed 64-bit range; any other payload
(empty, stray characters such as a space or comma, overflow) is a parse
error, modelled as none. -/
def parseBaud (s : List Nat) : Option Int :=
  match s with
  | [] => none
  | c :: rest =>
    let signed :=
      if c = 43 then (false, rest)
      else if c = 45 then (true, rest)
      else (false, c :: rest)
    match signed with
    | (neg, ds) =>
      if ds = [] then none
      else if ds.all (fun d => decide (48 ≤ d ∧ d ≤ 57)) then
        let v : Nat := ds.foldl (fun a d => a * 10 + (d - 48)) 0
        if neg then (if v ≤ 2 ^ 63 then some (-(v : Int)) else none)
        else (if v < 2 ^ 63 then some (v : Int) else none)
      else none

/-- Events the select statement in chanLoop can wake up on. -/
inductive ChanEvent
  | fromWs (data : List Nat)
  | toWs (data : List Nat)
  | input (data : List Nat)
  | closeSignal
  | shutdownSignal

/-- Embedding of one iteration of the select body of chanLoop, entered
while the client is neither closed nor shut down.  Returns none when
the iteration blocks forever under the modelled environment (a blocking
channel operation with no ready counterpart): delivery to the output or
title or baudrate port blocks unless a consumer is ready or buffer room
exists, and acquiring the flow-control mutex blocks while it is held.
Write errors are out of scope; WsClient.WriteMessage is modelled as
recording the frame and succeeding.

The fromWs arm dispatches on the first byte in source order.  Note the
source acquires and releases flowControl around the write in the toWs
arm but writes directly, without touching the gate, in the input arm. -/
def chanLoopStep (s : EngineState) : ChanEvent → Option EngineState
  | ChanEvent.fromWs data =>
    match data with
    | [] => some s
    | t :: payload =>
      if t = MsgOutput then
        if s.outputConsumerReady then
          some { s with outputDelivered := s.outputDelivered ++ [payload] }
        else none
      else if t = MsgServerPause then
        if s.flowControlEngaged then some s
        else if s.flowLockHeld then none
        else some { s with flowControlEngaged := true, flowLockHeld := true }
      else if t = MsgServerResume then
        if s.flowControlEngaged then
          some { s with flowControlEngaged := false, flowLockHeld := false }
        else some s
      else if t = MsgSetWindowTitle then
        let ch := drainChan s.winTitle
        if s.titleConsumerReady then
          some { s with winTitle := ch, titleDelivered := s.titleDelivered ++ [payload] }
        else if ch.buf.length < ch.cap then
          some { s with winTitle := { ch with buf := ch.buf ++ [payload] } }
        else none
      else if t = MsgDetectBaudrate then
        let ch := drainChan s.detectedBaudrate
        match parseBaud payload with
        | none => some { s with detectedBaudrate := ch, warnings := s.warnings + 1 }
        | some v =>
          if s.baudConsumerReady then
            some { s with detectedBaudrate := ch, baudDelivered := s.baudDelivered ++ [v] }
          else if ch.buf.length < ch.cap then
            some { s with detectedBaudrate := { ch with buf := ch.buf ++ [v] } }
          else none
      else some s
  | ChanEvent.toWs data =>
    if data.length = 0 then some s
    else if s.flowLockHeld then none
    else some { s with transportWrites := s.transportWrites ++ [data] }
  | ChanEvent.input data =>
    if data.length = 0 then some s
    else some { s with transportWrites := s.transportWrites ++ [MsgInput :: data] }
  | ChanEvent.closeSignal => some s
  | ChanEvent.shutdownSignal => some s

/-- Embedding of Client.doShutdown: a no-op when already shut down,
otherwise closes the shutdown channel, marks the epoch shut down,
force-disengages the flow gate when engaged, and, for a non-nil error,
sends it on the error port (modelled as delivered). -/
def doShutdown (e : Option GoError) (s : EngineState) : EngineState :=
  if !s.isShutdown then
    let s1 := { s with shutdownClosed := true, isShutdown := true }
    let s2 :=
      if s1.flowControlEngaged then
        { s1 with flowControlEngaged := false, flowLockHeld := false }
      else s1
    match e with
    | some err => { s2 with errorsSent := s2.errorsSent ++ [err] }
    | none => s2
  else s

/-- Applies a sequence of doShutdown calls in order. -/
def doShutdownCalls (calls : List (Option GoError)) (s : EngineState) : EngineState :=
  match calls with
  | [] => s
  | c :: rest => doShutdownCalls rest (doShutdown c s)

/-- Embedding of Client.SoftClose: errors out unless the epoch is
already shut down, otherwise closes the transport. -/
def SoftClose (s : EngineState) : EngineState × Option GoError :=
  if !s.isShutdown then (s, some GoError.softCloseWhileRunning)
  else ({ s with transportClosed := true,
                 transportCloseCount := s.transportCloseCount + 1 }, none)

/-- Embedding of Client.Close: soft shutdown, then, only when not yet
closed, mark closed, close every port channel (closeChan, winTitle,
output, input, error, toWs, fromWs — collapsed into the portsClosed
flag and portCloseCount), and close the transport via SoftClose. -/
def Close (s : EngineState) : EngineState × Option GoError :=
  let s1 := doShutdown none s
  if s1.closed then (s1, none)
  else
    let s2 := { s1 with closed := true, closeChanClosed := true,
                        portsClosed := true, portCloseCount := s1.portCloseCount + 1 }
    SoftClose s2

/-- Outcome of the websocket dial inside Redial, abstracting the network. -/
inductive DialResult
  | ok
  | fail

/-- Embedding of Client.Redial: refuses on a closed client before any
dial is attempted; otherwise dials (abstract outcome), and on success
installs a fresh shutdown channel and clears the shutdown flag. -/
def Redial (d : DialResult) (s : EngineState) : EngineState × Option GoError :=
  if s.closed then (s, some GoError.redialNotAllowed)
  else
    match d with
    | DialResult.fail => ({ s with dialCount := s.dialCount + 1 }, some GoError.connectFailed)
    | DialResult.ok =>
      ({ s with dialCount := s.dialCount + 1, shutdownClosed := false,
                isShutdown := false }, none)

/-- State of the watchdog goroutine: the current instant, both
deadlines, and the shutdown it has triggered, with time in seconds. -/
structure WatchdogState where
  now : Nat
  nextPing : Nat
  nextTimeout : Nat
  pings : Nat
  shutdowns : Nat
  shutdownAt : Option Nat
  shutdownError : Option GoError
  done : Bool
deriving DecidableEq, Repr

/-- Watchdog state at entry: the next ping one interval ahead, the
first timeout one extra ping interval beyond the steady-state bound,
exactly as the source computes nextPing and nextTimeout. -/
def watchdogInit (start n : Nat) : WatchdogState :=
  { now := start
    nextPing := start + n
    nextTimeout := start + (n + 1) + n
    pings := 0
    shutdowns := 0
    shutdownAt := none
    shutdownError := none
    done := false }

/-- Embedding of the pong arm of the watchdog select: an acknowledgment
received at instant t moves the timeout deadline to t + (n + 1). -/
def watchdogPong (n t : Nat) (s : WatchdogState) : WatchdogState :=
  { s with now := t, nextTimeout := t + (n + 1) }

/-- One select iteration of the watchdog against a peer that never
acknowledges: the earlier of the two timers fires.  On the ping timer a
ping is written and nextPing advances one interval; on the timeout
timer doShutdown is triggered with the not-responding error and the
goroutine returns (done).  Go select breaks a tie between two expired
timers nondeterministically; the run analysed below never reaches a
tie, so the tie arm chosen here (timeout) is irrelevant to it. -/
def watchdogStep (n : Nat) (s : WatchdogState) : WatchdogState :=
  if s.done then s
  else if s.nextPing < s.nextTimeout then
    { s with now := s.nextPing, pings := s.pings + 1, nextPing := s.nextPing + n }
  else
    { s with now := s.nextTimeout, shutdowns := s.shutdowns + 1,
             shutdownAt := some s.nextTimeout,
             shutdownError := some GoError.notResponding, done := true }

/-- Runs k select iterations of the watchdog with no acknowledgment. -/
def watchdogRun (n start : Nat) : Nat → WatchdogState
  | 0 => watchdogInit start n
  | k + 1 => watchdogStep n (watchdogRun n start k)

end Ws

namespace Handlers

/-- Helper: when the byte b does not occur in the list, goIndex yields -1,
matching bytes.Index. -/
theorem goIndex_of_not_mem {b : Nat} : ∀ {xs : List Nat}, b ∉ xs → goIndex b xs = -1 := by
  intro xs h
  induction xs with
  | nil => rfl
  | cons x rest ih =>
    rw [List.mem_cons, not_or] at h
    obtain ⟨h1, h2⟩ := h
    have hx : ¬ x = b := fun hh => h1 hh.symm
    simp [goIndex, hx, ih h2]

/-- C8: a chunk processed in Normal state that contains no occurrence of
the trigger byte is forwarded exactly as it is, no handler is invoked
(empty effect list) and the state stays Normal. -/
theorem passthrough_no_trigger (w : Bool) (chunk : List Nat)
    (_hne : chunk ≠ []) (hno : EscapeChar ∉ chunk) :
    handleChunk w false chunk = some (false, some chunk, []) := by
  have h := goIndex_of_not_mem hno
  simp [handleChunk, h]

/-- Witness for passthrough_no_trigger at the concrete chunk "hi". -/
theorem passthrough_no_trigger_witness :
    ([104, 105] : List Nat) ≠ [] ∧ EscapeChar ∉ ([104, 105] : List Nat) ∧
      handleChunk true false [104, 105] = some (false, some [104, 105], []) :=
  ⟨by decide, by decide, passthrough_no_trigger true [104, 105] (by decide) (by decide)⟩

/-- C2: evaluating handleStdin on the single Normal-state chunk
"hi" ++ trigger ++ q (bytes 104 105 20 113) forwards "hi" but produces
no effect at all: the source reads input[escapePos] — the trigger byte
itself, which matches no handler arm — instead of the following byte
113, so the quit sentinel claimed by the spec is never raised. -/
theorem inline_command_gets_trigger_byte :
    runChunks true false [[104, 105, 20, 113]] = some (false, [[104, 105]], []) := by
  rfl

/-- C3: feeding "hi" ++ trigger then "q" in two chunks raises the quit
sentinel once, while the single chunk "hi" ++ trigger ++ "q" raises
nothing, so the split-trigger equivalence claimed by the spec fails on
the code (same root cause as the inline command-byte off-by-one). -/
theorem split_vs_single_chunk_differ :
    runChunks true false [[104, 105, 20], [113]]
        = some (false, [[104, 105], []], [CmdEffect.quitSignal])
      ∧ runChunks true false [[104, 105, 20, 113]] = some (false, [[104, 105]], []) := by
  exact ⟨rfl, rfl⟩

/-- C10: a chunk holding exactly the trigger byte followed by a chunk
starting with the trigger byte makes handleStdin read past the end of
the spliced buffer (the escape-position shift moves the stale index past
the shrunk chunk), so the Go code panics with an index out of range:
the run evaluates to none, both for the second chunk [20] and for
[20, 97]. -/
theorem pending_trigger_command_out_of_range :
    runChunks true false [[20], [20]] = none
      ∧ runChunks true false [[20], [20, 97]] = none := by
  exact ⟨rfl, rfl⟩

end Handlers

namespace Ws

/-- C1: in the reachable engine state obtained from the fresh client by
processing a server-pause frame, the flow gate is engaged, yet the next
queued user-input event still completes and writes the input frame
(tag byte 48 followed by the payload) to the transport: the input arm
of chanLoop never touches the flow gate, unlike the control-frame arm,
so an outbound write can complete while the gate is engaged. -/
theorem input_write_bypasses_flow_gate :
    ((chanLoopStep engineInit (ChanEvent.fromWs [83])).bind
        (fun s => chanLoopStep s (ChanEvent.input [97]))).map
      (fun s => (s.flowControlEngaged, s.transportWrites))
      = some (true, [[48, 97]]) := by
  rfl

/-- C4: the window-title port is an unbuffered channel, so the drain
loop can never remove anything and delivery of a title blocks until a
consumer reads it: with no consumer, processing the first title frame
blocks chanLoop (none), stalling delivery; with a consumer, the first
title is handed over first, so after two title frames the consumer has
observed both titles in order, never only the second. -/
theorem title_delivery_blocks_and_keeps_first :
    chanLoopStep engineInit (ChanEvent.fromWs [49, 97]) = none
      ∧ ((chanLoopStep { engineInit with titleConsumerReady := true }
            (ChanEvent.fromWs [49, 97])).bind
          (fun s => chanLoopStep s (ChanEvent.fromWs [49, 98]))).map
          (fun s => s.titleDelivered)
        = some [[97], [98]] := by
  exact ⟨rfl, rfl⟩

/-- Helper: doShutdown always leaves the epoch marked shut down. -/
theorem doShutdown_isShutdown (e : Option GoError) (s : EngineState) :
    (doShutdown e s).isShutdown = true := by
  by_cases h : s.isShutdown
  · simp [doShutdown, h]
  · cases e <;> by_cases hf : s.flowControlEngaged <;>
      simp [doShutdown, h, hf]

/-- Helper: doShutdown on an epoch already shut down changes nothing. -/
theorem doShutdown_noop (e : Option GoError) (s : EngineState)
    (h : s.isShutdown = true) : doShutdown e s = s := by
  simp [doShutdown, h]

/-- Helper: any sequence of doShutdown calls on an epoch already shut
down changes nothing. -/
theorem doShutdownCalls_noop (calls : List (Option GoError)) :
    ∀ s : EngineState, s.isShutdown = true → doShutdownCalls calls s = s := by
  induction calls with
  | nil => intro s _; rfl
  | cons c rest ih =>
    intro s h
    show doShutdownCalls rest (doShutdown c s) = s
    rw [doShutdown_noop c s h, ih s h]

/-- C5: on an epoch not yet shut down, the first doShutdown marks the
epoch shut down, force-disengages an engaged flow gate (including the
lock), and appends exactly the errors of its optional argument to the
error port; any further doShutdown calls in the same epoch change
nothing, so the error port gains at most one notification per epoch. -/
theorem doShutdown_idempotent_per_epoch (s : EngineState) (e : Option GoError)
    (rest : List (Option GoError)) :
    (doShutdown e { s with isShutdown := false }).isShutdown = true
      ∧ (doShutdown e { s with isShutdown := false, flowControlEngaged := true, flowLockHeld := true }).flowControlEngaged = false
      ∧ (doShutdown e { s with isShutdown := false, flowControlEngaged := true, flowLockHeld := true }).flowLockHeld = false
      ∧ (doShutdown e { s with isShutdown := false }).errorsSent
          = s.errorsSent ++ e.toList
      ∧ doShutdownCalls rest (doShutdown e { s with isShutdown := false })
          = doShutdown e { s with isShutdown := false }
      ∧ (doShutdownCalls rest (doShutdown e { s with isShutdown := false })).errorsSent.length
          ≤ s.errorsSent.length + 1 := by
  have h1 := doShutdown_isShutdown e { s with isShutdown := false }
  have h5 := doShutdownCalls_noop rest (doShutdown e { s with isShutdown := false }) h1
  have h4 : (doShutdown e { s with isShutdown := false }).errorsSent
      = s.errorsSent ++ e.toList := by
    cases e <;> by_cases hf : s.flowControlEngaged <;> simp [doShutdown, hf]
  refine ⟨h1, ?_, ?_, h4, h5, ?_⟩
  · cases e <;> simp [doShutdown]
  · cases e <;> simp [doShutdown]
  · rw [h5, h4]
    cases e <;> simp [Option.toList]

/-- C6: hard close is idempotent — a second Close call observes the
client closed, returns nil and changes nothing (no port or transport is
closed again); Redial on a hard-closed client returns the redial
precondition error without dialing or changing state; SoftClose on a
client that is not shut down returns the soft-close precondition error
without closing the transport. -/
theorem close_idempotent_and_lifecycle_guards (s : EngineState) (d : DialResult) :
    Close (Close s).1 = ((Close s).1, none)
      ∧ Redial d { s with closed := true }
          = ({ s with closed := true }, some GoError.redialNotAllowed)
      ∧ SoftClose { s with isShutdown := false }
          = ({ s with isShutdown := false }, some GoError.softCloseWhileRunning) := by
  refine ⟨?_, ?_, ?_⟩
  · by_cases hc : s.closed <;> by_cases hs : s.isShutdown <;>
      by_cases hf : s.flowControlEngaged <;>
      simp [Close, SoftClose, doShutdown, hc, hs, hf]
  · simp [Redial]
  · simp [SoftClose]

/-- Helper: from iteration 3 on, the 5-second no-acknowledgment
watchdog run is frozen in its shutdown state. -/
theorem watchdogRun5_stable (k : Nat) :
    watchdogRun 5 0 (3 + k) = watchdogRun 5 0 3 := by
  induction k with
  | zero => rfl
  | succ m ih =>
    show watchdogStep 5 (watchdogRun 5 0 (3 + m)) = watchdogRun 5 0 3
    rw [ih]
    rfl

/-- C7: the first timeout deadline is one ping interval beyond the
steady-state bound, at start + 2n + 1; an acknowledgment at instant t
resets the timeout deadline to t + n + 1; and with interval 5 against a
peer that never acknowledges, the watchdog triggers shutdown with the
not-responding error exactly once, at instant 11 (within 5 and 11
seconds of start), and no iteration count ever yields a second
shutdown or a different shutdown instant. -/
theorem watchdog_deadlines_and_single_timeout (n start t : Nat)
    (s : WatchdogState) (j : Nat) :
    (watchdogInit start n).nextTimeout = start + 2 * n + 1
      ∧ (watchdogPong n t s).nextTimeout = t + (n + 1)
      ∧ (watchdogRun 5 0 3).shutdownAt = some 11
      ∧ (watchdogRun 5 0 3).shutdowns = 1
      ∧ (watchdogRun 5 0 3).shutdownError = some GoError.notResponding
      ∧ (5 ≤ 11 ∧ 11 ≤ 2 * 5 + 1)
      ∧ ((watchdogRun 5 0 j).shutdownAt = none
          ∨ (watchdogRun 5 0 j).shutdownAt = some 11)
      ∧ (watchdogRun 5 0 j).shutdowns ≤ 1 := by
  refine ⟨by simp [watchdogInit]; omega, rfl, rfl, rfl, rfl, by omega, ?_, ?_⟩
  · match j with
    | 0 => exact Or.inl rfl
    | 1 => exact Or.inl rfl
    | 2 => exact Or.inl rfl
    | k + 3 =>
      rw [show k + 3 = 3 + k from Nat.add_comm k 3, watchdogRun5_stable k]
      exact Or.inr rfl
  · match j with
    | 0 => decide
    | 1 => decide
    | 2 => decide
    | k + 3 =>
      rw [show k + 3 = 3 + k from Nat.add_comm k 3, watchdogRun5_stable k]
      decide

/-- C9: a detected-baudrate frame whose payload parses as a single
decimal integer is delivered on the baud port, and any payload that
does not parse — including the two space-separated values form, such as
"123 456" — only increments the warning count; in both cases nothing
else in the engine state changes (in particular no shutdown). -/
theorem baud_frame_parse_or_warn (s : EngineState) (payload : List Nat) :
    chanLoopStep
        { s with baudConsumerReady := true,
                 detectedBaudrate := ⟨s.detectedBaudrate.cap, []⟩ }
        (ChanEvent.fromWs (66 :: payload))
      = some { s with baudConsumerReady := true,
                      detectedBaudrate := ⟨s.detectedBaudrate.cap, []⟩,
                      baudDelivered := s.baudDelivered ++ (parseBaud payload).toList,
                      warnings := s.warnings + (if (parseBaud payload).isSome then 0 else 1) }
      ∧ parseBaud [49, 50, 51, 32, 52, 53, 54] = none := by
  constructor
  · cases h : parseBaud payload <;>
      simp [chanLoopStep, drainChan, drainList, h,
            MsgOutput, MsgServerPause, MsgServerResume, MsgSetWindowTitle,
            MsgDetectBaudrate]
  · rfl

end Ws
